import Mathlib

/-!
Shallow embedding of the git-legacy analysis pipeline
(utils/utils.py, core/analyzer.py, core/scorer.py, config.py).

Modelling conventions:
- Python floats are embedded as rationals in the analyzer (all its
  arithmetic is exact) and as real numbers in the scorer, whose
  log-scaling uses the natural logarithm.
- A raw JSON date field is abstracted by `RawDate`: it is either
  absent, JSON null, the empty string, a non-empty string that
  `datetime.fromisoformat` rejects, or a string that parses to a
  timestamp `t` (rational seconds in UTC). The current time `now`
  is a parameter threaded through the date helpers.
- Python dict `.get` with a default is embedded through `Option`
  fields plus `Option.getD`; truthiness tests on strings and objects
  are embedded as `Bool` fields or explicit emptiness checks.
-/

namespace GitLegacy

/-- Abstraction of a raw date-string field as received from the API. -/
inductive RawDate
  | missing
  | nullVal
  | emptyStr
  | unparsable
  | parsableAt (t : ℚ)
  deriving DecidableEq

/-- Python truthiness of the raw field value: absent, null and the
empty string are falsy; any non-empty string is truthy. -/
def RawDate.truthy : RawDate → Bool
  | .unparsable => true
  | .parsableAt _ => true
  | _ => false

/-- utils.parse_github_date: None for a falsy argument, None when
fromisoformat raises ValueError, otherwise the parsed datetime. -/
def parse_github_date : RawDate → Option ℚ
  | .parsableAt t => some t
  | _ => none

/-- utils.days_since: days between now and the parsed date, floored
at 0.0; 0.0 when the date does not parse. -/
def days_since (now : ℚ) (d : RawDate) : ℚ :=
  match parse_github_date d with
  | none => 0
  | some t => max ((now - t) / 86400) 0

/-- utils.years_since. -/
def years_since (now : ℚ) (d : RawDate) : ℚ :=
  days_since now d / 365.25

/-- utils.safe_divide over the analyzer rationals. -/
def safe_divide (numerator denominator : ℚ) (d : ℚ := 0) : ℚ :=
  if denominator = 0 then d else numerator / denominator

/- ── core/analyzer.py: profile signals ── -/

/-- Raw profile mapping: each field is the value of the corresponding
key, `none` when the key is absent; boolean fields record Python
truthiness of the raw value. -/
structure Profile where
  login : Option String
  created_at : RawDate
  public_repos : Option ℚ
  followers : Option ℚ
  following : Option ℚ
  blog : Bool
  bio : Bool
  hireable : Bool
  deriving DecidableEq

/-- The wholly empty profile mapping. -/
def emptyProfile : Profile :=
  ⟨none, .missing, none, none, none, false, false, false⟩

structure ProfileM where
  username : String
  account_age_days : ℚ
  account_age_years : ℚ
  public_repos : ℚ
  followers : ℚ
  following : ℚ
  has_blog : Bool
  has_bio : Bool
  hireable : Bool
  deriving DecidableEq

/-- analyzer._profile_metrics. -/
def profile_metrics (now : ℚ) (p : Profile) : ProfileM :=
  ⟨p.login.getD "unknown",
   days_since now p.created_at,
   years_since now p.created_at,
   p.public_repos.getD 0,
   p.followers.getD 0,
   p.following.getD 0,
   p.blog, p.bio, p.hireable⟩

/- ── core/analyzer.py: repository signals ── -/

/-- Raw repository record; numeric fields are `none` when absent,
`license` and `fork` record Python truthiness of the raw values. -/
structure Repo where
  stargazers_count : Option ℚ
  forks_count : Option ℚ
  watchers_count : Option ℚ
  language : Option String
  created_at : RawDate
  license : Bool
  fork : Bool
  deriving DecidableEq

/-- The language value of a repo when it is truthy (present, non-null
and not the empty string), as tested by `if r.get("language")`. -/
def truthyLang (r : Repo) : Option String :=
  match r.language with
  | some s => if s = "" then none else some s
  | none => none

/-- One step of Counter construction: increment the count of `s`,
appending a fresh key at the end on first encounter (Counter keeps
insertion order). -/
def bumpLang : List (String × ℕ) → String → List (String × ℕ)
  | [], s => [(s, 1)]
  | (k, c) :: rest, s =>
    if k = s then (k, c + 1) :: rest else (k, c) :: bumpLang rest s

/-- One repo of the Counter construction: repos whose language is not
truthy contribute nothing. -/
def counter_step (acc : List (String × ℕ)) (r : Repo) : List (String × ℕ) :=
  match truthyLang r with
  | some s => bumpLang acc s
  | none => acc

/-- collections.Counter over the truthy language values, as an
association list in first-encounter key order. -/
def lang_counter (repos : List Repo) : List (String × ℕ) :=
  repos.foldl counter_step []

/-- Stable insertion into a list sorted by descending count: the new
element, coming from the left of the already-sorted part, goes before
the first element whose count does not exceed it. -/
def insertDesc (x : String × ℕ) : List (String × ℕ) → List (String × ℕ)
  | [] => [x]
  | y :: ys => if y.2 ≤ x.2 then x :: y :: ys else y :: insertDesc x ys

/-- Counter.most_common(): items sorted by descending count, ties kept
in insertion order (Python sorted is stable). -/
def most_common (l : List (String × ℕ)) : List (String × ℕ) :=
  l.foldr insertDesc []

structure RepoM where
  total_repos : ℕ
  total_stars : ℚ
  total_forks_received : ℚ
  total_watchers : ℚ
  avg_repo_age_days : ℚ
  languages : List String
  top_languages : String
  has_license_ratio : ℚ
  forked_ratio : ℚ
  original_repo_count : ℕ
  language_count : ℕ
  deriving DecidableEq

/-- analyzer._repo_metrics. -/
def repo_metrics (now : ℚ) (repos : List Repo) : RepoM :=
  if repos.isEmpty then
    ⟨0, 0, 0, 0, 0, [], "N/A", 0, 0, 0, 0⟩
  else
    let total_stars := (repos.map (fun r => r.stargazers_count.getD 0)).sum
    let total_forks_received := (repos.map (fun r => r.forks_count.getD 0)).sum
    let total_watchers := (repos.map (fun r => r.watchers_count.getD 0)).sum
    let lc := lang_counter repos
    let languages := (most_common lc).map Prod.fst
    let top_languages :=
      if languages.isEmpty then "N/A"
      else String.intercalate ", " (languages.take 5)
    let ages := (repos.filter (fun r => r.created_at.truthy)).map
      (fun r => days_since now r.created_at)
    let avg_repo_age_days :=
      if ages.isEmpty then 0 else ages.sum / (ages.length : ℚ)
    let licensed_count := (repos.filter (fun r => r.license)).length
    let has_license_ratio := safe_divide (licensed_count : ℚ) (repos.length : ℚ)
    let forked_count := (repos.filter (fun r => r.fork)).length
    let forked_ratio := safe_divide (forked_count : ℚ) (repos.length : ℚ)
    ⟨repos.length, total_stars, total_forks_received, total_watchers,
     avg_repo_age_days, languages, top_languages, has_license_ratio,
     forked_ratio, repos.length - forked_count, lc.length⟩

/- ── core/analyzer.py: event signals ── -/

/-- Raw event record: `type` is `none` when the key is absent or null,
`payload_commits` is the length of the commits list reached through
the `.get("payload", \x7b\x7d).get("commits", [])` defaults. -/
structure Event where
  type : Option String
  created_at : RawDate
  payload_commits : ℕ
  deriving DecidableEq

/-- datetime.fromisoformat applied to
`event.get("created_at", "").replace("Z", "+00:00")` inside the event
loop: raises (ValueError, or AttributeError on a null field) unless
the string parses — both are modelled as `Except.error`. -/
def fromisoformatEv : RawDate → Except Unit ℚ
  | .parsableAt t => Except.ok t
  | _ => Except.error ()

/-- Mutable state of the event loop of analyzer._event_metrics. -/
structure EvAcc where
  commit_count_90d : ℕ
  active_days : List ℤ
  events_last_30d : ℕ
  events_30_90d : ℕ
  deriving DecidableEq

/-- Loop body after a successful date parse: the 90-day push branch,
then the 30-day and 30-to-90-day counters. -/
def event_tally (now : ℚ) (acc : EvAcc) (e : Event) (t : ℚ) : EvAcc :=
  let age_days := (now - t) / 86400
  let acc1 :=
    if age_days ≤ 90 then
      if e.type = some "PushEvent" then
        { acc with
          commit_count_90d := acc.commit_count_90d + e.payload_commits,
          active_days := acc.active_days.insert ⌊t / 86400⌋ }
      else acc
    else acc
  if age_days ≤ 30 then
    { acc1 with events_last_30d := acc1.events_last_30d + 1 }
  else if age_days ≤ 90 then
    { acc1 with events_30_90d := acc1.events_30_90d + 1 }
  else acc1

/-- One iteration of the event loop: the try/except around the date
parse skips the record on failure and otherwise tallies it. -/
def event_step (now : ℚ) (acc : EvAcc) (e : Event) : EvAcc :=
  match fromisoformatEv e.created_at with
  | Except.error _ => acc
  | Except.ok t => event_tally now acc e t

/-- The same iteration in the Except monad, with the parse failure
propagating as an error precisely where Python would raise, and the
except-clause catching it. -/
def event_stepE (now : ℚ) (acc : EvAcc) (e : Event) : Except Unit EvAcc :=
  match fromisoformatEv e.created_at with
  | Except.error _ => Except.ok acc
  | Except.ok t => Except.ok (event_tally now acc e t)

/-- The whole event loop in the Except monad. -/
def event_foldE (now : ℚ) (events : List Event) : Except Unit EvAcc :=
  events.foldlM (event_stepE now) ⟨0, [], 0, 0⟩

/-- Number of distinct truthy event types (the Python set over
`e.get("type")` restricted to truthy values). -/
def event_types_count (events : List Event) : ℕ :=
  ((events.filterMap (fun e => e.type)).filter (fun s => s ≠ "")).dedup.length

/-- The most-active-period heuristic of analyzer._event_metrics. -/
def most_active_rule (events_last_30d events_30_90d : ℕ) : String :=
  if events_30_90d < events_last_30d then "Last 30 days (currently active)"
  else if 0 < events_30_90d then "30–90 days ago"
  else "More than 90 days ago"

structure EventM where
  total_events : ℕ
  push_events : ℕ
  pr_events : ℕ
  issue_events : ℕ
  fork_events : ℕ
  watch_events : ℕ
  commit_count_90d : ℕ
  active_days_90d : ℕ
  events_last_30d : ℕ
  events_30_90d : ℕ
  most_active_period : String
  event_type_diversity : ℕ
  deriving DecidableEq

/-- analyzer._event_metrics. -/
def event_metrics (now : ℚ) (events : List Event) : EventM :=
  if events.isEmpty then
    ⟨0, 0, 0, 0, 0, 0, 0, 0, 0, 0, "N/A", 0⟩
  else
    let push := (events.filter (fun e => e.type = some "PushEvent")).length
    let pr := (events.filter (fun e =>
      e.type = some "PullRequestEvent" ∨
      e.type = some "PullRequestReviewEvent")).length
    let issue := (events.filter (fun e =>
      e.type = some "IssuesEvent" ∨
      e.type = some "IssueCommentEvent")).length
    let forks := (events.filter (fun e => e.type = some "ForkEvent")).length
    let watch := (events.filter (fun e => e.type = some "WatchEvent")).length
    let acc := events.foldl (event_step now) ⟨0, [], 0, 0⟩
    ⟨events.length, push, pr, issue, forks, watch,
     acc.commit_count_90d, acc.active_days.length,
     acc.events_last_30d, acc.events_30_90d,
     most_active_rule acc.events_last_30d acc.events_30_90d,
     event_types_count events⟩

/- ── core/analyzer.py: derived signals ── -/

structure DerivedM where
  collaboration_raw : ℚ
  momentum_ratio : ℚ
  deriving DecidableEq

/-- analyzer._derived_metrics; it only reads the five event keys,
which are always present in the merged metrics dict. -/
def derived_metrics (em : EventM) : DerivedM :=
  let collaboration_raw : ℚ :=
    (em.pr_events : ℚ) * 3 + (em.issue_events : ℚ) * 2 + (em.fork_events : ℚ)
  let recent_rate : ℚ := (em.events_last_30d : ℚ)
  let historic_rate : ℚ := safe_divide (em.events_30_90d : ℚ) 2
  ⟨collaboration_raw, safe_divide recent_rate (max historic_rate 1)⟩

/- ── core/analyzer.py: analyze ── -/

/-- Raw payload of GitHubClient.fetch_all: the missing-key defaults
({} and []) are the empty profile and the empty lists. -/
structure RawData where
  profile : Profile
  repos : List Repo
  events : List Event
  deriving DecidableEq

/-- The merged metrics dict produced by analyzer.analyze. -/
structure Metrics where
  username : String
  account_age_days : ℚ
  account_age_years : ℚ
  public_repos : ℚ
  followers : ℚ
  following : ℚ
  has_blog : Bool
  has_bio : Bool
  hireable : Bool
  total_repos : ℕ
  total_stars : ℚ
  total_forks_received : ℚ
  total_watchers : ℚ
  avg_repo_age_days : ℚ
  languages : List String
  top_languages : String
  has_license_ratio : ℚ
  forked_ratio : ℚ
  original_repo_count : ℕ
  language_count : ℕ
  total_events : ℕ
  push_events : ℕ
  pr_events : ℕ
  issue_events : ℕ
  fork_events : ℕ
  watch_events : ℕ
  commit_count_90d : ℕ
  active_days_90d : ℕ
  events_last_30d : ℕ
  events_30_90d : ℕ
  most_active_period : String
  event_type_diversity : ℕ
  collaboration_raw : ℚ
  momentum_ratio : ℚ
  deriving DecidableEq

/-- analyzer.analyze: extract and merge all metric groups. -/
def analyze (now : ℚ) (raw : RawData) : Metrics :=
  let p := profile_metrics now raw.profile
  let r := repo_metrics now raw.repos
  let e := event_metrics now raw.events
  let d := derived_metrics e
  ⟨p.username, p.account_age_days, p.account_age_years, p.public_repos,
   p.followers, p.following, p.has_blog, p.has_bio, p.hireable,
   r.total_repos, r.total_stars, r.total_forks_received, r.total_watchers,
   r.avg_repo_age_days, r.languages, r.top_languages, r.has_license_ratio,
   r.forked_ratio, r.original_repo_count, r.language_count,
   e.total_events, e.push_events, e.pr_events, e.issue_events,
   e.fork_events, e.watch_events, e.commit_count_90d, e.active_days_90d,
   e.events_last_30d, e.events_30_90d, e.most_active_period,
   e.event_type_diversity,
   d.collaboration_raw, d.momentum_ratio⟩

/- ── utils.py: float helpers used by the scorer ── -/

/-- utils.clamp. -/
noncomputable def clamp (value : ℝ) (lo : ℝ := 0) (hi : ℝ := 100) : ℝ :=
  max lo (min hi value)

/-- utils.safe_divide over the scorer reals. -/
noncomputable def safe_divideR (numerator denominator : ℝ) (d : ℝ := 0) : ℝ :=
  if denominator = 0 then d else numerator / denominator

/-- utils.log_scale: math.log1p is the natural logarithm of 1 + x. -/
noncomputable def log_scale (value : ℝ) (scale : ℝ := 10) : ℝ :=
  if value ≤ 0 then 0
  else clamp (Real.log (1 + value) / Real.log (1 + scale) * 100)

/- ── config.py ── -/

def UTOPIA_THRESHOLD : ℝ := 70

def DYSTOPIA_THRESHOLD : ℝ := 40

/- ── core/scorer.py ── -/

/-- scorer._score_consistency. -/
noncomputable def score_consistency (m : Metrics) : ℝ :=
  let active_days : ℝ := (m.active_days_90d : ℝ)
  let commit_count : ℝ := (m.commit_count_90d : ℝ)
  let account_age : ℝ := (m.account_age_days : ℝ)
  let active_ratio := clamp (safe_divideR active_days 90 * 100)
  let commit_score := log_scale commit_count 50
  let longevity_bonus := clamp (log_scale (account_age / 365) 5 * 0.2)
  clamp (active_ratio * 0.5 + commit_score * 0.4 + longevity_bonus * 0.1)

/-- scorer._score_collaboration. -/
noncomputable def score_collaboration (m : Metrics) : ℝ :=
  let pr_score := log_scale (m.pr_events : ℝ) 20
  let issue_score := log_scale (m.issue_events : ℝ) 30
  let fork_score := log_scale (m.fork_events : ℝ) 10
  let follower_score := log_scale (m.followers : ℝ) 100
  clamp (pr_score * 0.40 + issue_score * 0.30 +
         fork_score * 0.15 + follower_score * 0.15)

/-- scorer._score_depth. -/
noncomputable def score_depth (m : Metrics) : ℝ :=
  let star_score := log_scale (m.total_stars : ℝ) 200
  let fork_score := log_scale (m.total_forks_received : ℝ) 50
  let age_score := log_scale ((m.avg_repo_age_days : ℝ) / 30) 24
  let repo_score := log_scale (m.original_repo_count : ℝ) 30
  clamp (star_score * 0.35 + fork_score * 0.25 +
         age_score * 0.20 + repo_score * 0.20)

/-- scorer._score_breadth. -/
noncomputable def score_breadth (m : Metrics) : ℝ :=
  let lang_score := log_scale (m.language_count : ℝ) 10
  let diversity_score := log_scale (m.event_type_diversity : ℝ) 8
  let repo_breadth := log_scale (m.total_repos : ℝ) 50
  clamp (lang_score * 0.50 + diversity_score * 0.30 + repo_breadth * 0.20)

/-- scorer._score_momentum. -/
noncomputable def score_momentum (m : Metrics) : ℝ :=
  let momentum_ratio : ℝ := (m.momentum_ratio : ℝ)
  let recent_activity := log_scale (m.events_last_30d : ℝ) 60
  let ratio_score := clamp (min momentum_ratio 3.0 / 3.0 * 100)
  clamp (ratio_score * 0.60 + recent_activity * 0.40)

/-- scorer._score_openness. -/
noncomputable def score_openness (m : Metrics) : ℝ :=
  let license_score := (m.has_license_ratio : ℝ) * 100
  let fork_openness := (m.forked_ratio : ℝ) * 50
  let profile_score : ℝ :=
    (if m.has_blog then 25 else 0) + (if m.has_bio then 25 else 0)
  clamp (license_score * 0.40 + fork_openness * 0.30 + profile_score * 0.30)

/-- scorer._classify_tendency. -/
noncomputable def classify_tendency (overall_score : ℝ) : String :=
  if UTOPIA_THRESHOLD ≤ overall_score then "Utopia"
  else if overall_score ≤ DYSTOPIA_THRESHOLD then "Dystopia"
  else "Unexpected"

structure ScoreReport where
  consistency : ℝ
  collaboration : ℝ
  depth : ℝ
  breadth : ℝ
  momentum : ℝ
  openness : ℝ
  overall_score : ℝ
  tendency : String

/-- scorer.score: the six dimensions, the weighted overall score
(weights from config.SCORE_WEIGHTS), and the tendency. -/
noncomputable def score (m : Metrics) : ScoreReport :=
  let consistency := score_consistency m
  let collaboration := score_collaboration m
  let depth := score_depth m
  let breadth := score_breadth m
  let momentum := score_momentum m
  let openness := score_openness m
  let overall_score := clamp
    (consistency * 0.20 + collaboration * 0.20 + depth * 0.20 +
     breadth * 0.15 + momentum * 0.15 + openness * 0.10)
  ⟨consistency, collaboration, depth, breadth, momentum, openness,
   overall_score, classify_tendency overall_score⟩

/- ── Spec-side definitions, written from the wording of the spec,
for comparison against the code embedding ── -/

/-- Spec wording for the average repo age: the mean of per-repo
days-since-creation taken over exactly the repos with a parsable
created_at, 0.0 when no repo has a parsable created_at. -/
def avg_repo_age_days_spec (now : ℚ) (repos : List Repo) : ℚ :=
  let ages := (repos.filter (fun r => (parse_github_date r.created_at).isSome)).map
    (fun r => days_since now r.created_at)
  if ages.isEmpty then 0 else ages.sum / (ages.length : ℚ)

/-- Spec wording for topLanguages: frequency count of the non-null
language values (the empty string included), ranked by the same
stable descending sort, top five joined, N/A when none. -/
def top_languages_spec (repos : List Repo) : String :=
  let counter := repos.foldl (fun acc r =>
    match r.language with
    | some s => bumpLang acc s
    | none => acc) []
  let languages := (most_common counter).map Prod.fst
  if languages.isEmpty then "N/A"
  else String.intercalate ", " (languages.take 5)

/-- The count recorded for key `s` in a counter association list. -/
def lookupCount (s : String) : List (String × ℕ) → ℕ
  | [] => 0
  | p :: rest => if p.1 = s then p.2 else lookupCount s rest

/- ── Concrete inputs used by witnesses and counterexamples ── -/

/-- A push event with no created_at field. -/
def badPush : Event := ⟨some "PushEvent", RawDate.missing, 2⟩

/-- An event with no type field, created five days before `now = 0`. -/
def noTypeEvent : Event := ⟨none, RawDate.parsableAt (-432000), 0⟩

/-- A fully empty event object. -/
def emptyEvent : Event := ⟨none, RawDate.missing, 0⟩

/-- Raw data whose events list holds the three malformed records. -/
def rawBad : RawData := ⟨emptyProfile, [], [badPush, noTypeEvent, emptyEvent]⟩

/-- An event one day before `now = 0`. -/
def ev30 : Event := ⟨some "PushEvent", RawDate.parsableAt (-86400), 1⟩

/-- Raw data with three recent events and no 30-to-90-day events. -/
def raw3 : RawData := ⟨emptyProfile, [], [ev30, ev30, ev30]⟩

/-- A watch event one day before `now = 0`. -/
def evWitness : Event := ⟨some "WatchEvent", RawDate.parsableAt (-86400), 0⟩

/-- A repo created at the epoch, so ten days old at `now = 864000`. -/
def repoOld : Repo := ⟨none, none, none, none, RawDate.parsableAt 0, false, false⟩

/-- A repo whose created_at is a non-empty unparsable string. -/
def repoGarbage : Repo := ⟨none, none, none, none, RawDate.unparsable, false, false⟩

/-- A repo whose language is the empty string: non-null but falsy. -/
def repoEmptyLang : Repo := ⟨none, none, none, some "", RawDate.missing, false, false⟩

/-- A repo whose language is Python. -/
def repoPy : Repo := ⟨none, none, none, some "Python", RawDate.missing, false, false⟩

/-- All-zero metrics record. -/
def m0 : Metrics :=
  ⟨"unknown", 0, 0, 0, 0, 0, false, false, false,
   0, 0, 0, 0, 0, [], "N/A", 0, 0, 0, 0,
   0, 0, 0, 0, 0, 0, 0, 0, 0, 0, "N/A", 0,
   0, 0⟩

/-- The numeric fields of a metrics record are non-negative (the
natural-number fields are so by type). -/
def Metrics.Nonneg (m : Metrics) : Prop :=
  0 ≤ m.account_age_days ∧ 0 ≤ m.account_age_years ∧
  0 ≤ m.public_repos ∧ 0 ≤ m.followers ∧ 0 ≤ m.following ∧
  0 ≤ m.total_stars ∧ 0 ≤ m.total_forks_received ∧
  0 ≤ m.total_watchers ∧ 0 ≤ m.avg_repo_age_days ∧
  0 ≤ m.has_license_ratio ∧ 0 ≤ m.forked_ratio ∧
  0 ≤ m.collaboration_raw ∧ 0 ≤ m.momentum_ratio

/- ── Helper lemmas ── -/

theorem clamp_nonneg (v : ℝ) : 0 ≤ clamp v :=
  le_max_left 0 (min 100 v)

theorem clamp_le_100 (v : ℝ) : clamp v ≤ 100 :=
  max_le (by norm_num) (min_le_left 100 v)

theorem event_stepE_ok (now : ℚ) (acc : EvAcc) (e : Event) :
    event_stepE now acc e = Except.ok (event_step now acc e) := by
  cases h : fromisoformatEv e.created_at <;>
    simp [event_stepE, event_step, h]

theorem foldlM_event_stepE_ok (now : ℚ) (events : List Event) :
    ∀ acc : EvAcc,
      events.foldlM (event_stepE now) acc =
        Except.ok (events.foldl (event_step now) acc) := by
  induction events with
  | nil => intro acc; rfl
  | cons e rest ih =>
    intro acc
    rw [List.foldlM_cons, event_stepE_ok]
    simpa using ih (event_step now acc e)

theorem mem_insertDesc {z x : String × ℕ} :
    ∀ {l : List (String × ℕ)}, z ∈ insertDesc x l ↔ z = x ∨ z ∈ l := by
  intro l
  induction l with
  | nil => simp [insertDesc]
  | cons y ys ih =>
    by_cases h : y.2 ≤ x.2
    · rw [insertDesc, if_pos h]
      simp only [List.mem_cons]
    · rw [insertDesc, if_neg h]
      simp only [List.mem_cons, ih]
      tauto

theorem insertDesc_perm (x : String × ℕ) (l : List (String × ℕ)) :
    (insertDesc x l).Perm (x :: l) := by
  induction l with
  | nil => simp [insertDesc]
  | cons y ys ih =>
    by_cases h : y.2 ≤ x.2
    · rw [insertDesc, if_pos h]
    · rw [insertDesc, if_neg h]
      exact (ih.cons y).trans (List.Perm.swap x y ys)

theorem sorted_insertDesc (x : String × ℕ) (l : List (String × ℕ))
    (hl : l.Sorted (fun a b => b.2 ≤ a.2)) :
    (insertDesc x l).Sorted (fun a b => b.2 ≤ a.2) := by
  induction l with
  | nil => simp [insertDesc]
  | cons y ys ih =>
    rw [List.sorted_cons] at hl
    by_cases h : y.2 ≤ x.2
    · rw [insertDesc, if_pos h, List.sorted_cons]
      refine ⟨?_, List.sorted_cons.mpr hl⟩
      intro z hz
      rcases List.mem_cons.mp hz with rfl | hz
      · exact h
      · exact le_trans (hl.1 z hz) h
    · rw [insertDesc, if_neg h, List.sorted_cons]
      refine ⟨?_, ih hl.2⟩
      intro z hz
      rcases mem_insertDesc.mp hz with rfl | hz
      · exact le_of_not_le h
      · exact hl.1 z hz

theorem sorted_most_common (l : List (String × ℕ)) :
    (most_common l).Sorted (fun a b => b.2 ≤ a.2) := by
  induction l with
  | nil => simp [most_common]
  | cons x xs ih => exact sorted_insertDesc x (most_common xs) ih

theorem most_common_perm (l : List (String × ℕ)) :
    (most_common l).Perm l := by
  induction l with
  | nil => simp [most_common]
  | cons x xs ih =>
    exact (insertDesc_perm x (most_common xs)).trans (ih.cons x)

theorem filter_insertDesc (x : String × ℕ) (l : List (String × ℕ)) (c : ℕ) :
    (insertDesc x l).filter (fun p => p.2 = c) =
      if x.2 = c then x :: l.filter (fun p => p.2 = c)
      else l.filter (fun p => p.2 = c) := by
  induction l with
  | nil => by_cases hx : x.2 = c <;> simp [insertDesc, hx]
  | cons y ys ih =>
    by_cases h : y.2 ≤ x.2
    · rw [insertDesc, if_pos h]
      by_cases hx : x.2 = c <;> by_cases hy : y.2 = c <;>
        simp [List.filter_cons, hx, hy]
    · rw [insertDesc, if_neg h]
      have hlt : x.2 < y.2 := lt_of_not_le h
      by_cases hx : x.2 = c <;> by_cases hy : y.2 = c
      · exact absurd (hx.trans hy.symm) (by omega)
      · simp [List.filter_cons, hx, hy, ih]
      · simp [List.filter_cons, hx, hy, ih]
      · simp [List.filter_cons, hx, hy, ih]

theorem filter_most_common (l : List (String × ℕ)) (c : ℕ) :
    (most_common l).filter (fun p => p.2 = c) =
      l.filter (fun p => p.2 = c) := by
  induction l with
  | nil => simp [most_common]
  | cons x xs ih =>
    show (insertDesc x (most_common xs)).filter (fun p => p.2 = c) = _
    rw [filter_insertDesc, List.filter_cons, ih]
    by_cases hx : x.2 = c <;> simp [hx]

theorem lookupCount_bumpLang_same (s : String) (l : List (String × ℕ)) :
    lookupCount s (bumpLang l s) = lookupCount s l + 1 := by
  induction l with
  | nil => simp [bumpLang, lookupCount]
  | cons p rest ih =>
    obtain ⟨k, cnt⟩ := p
    by_cases h : k = s
    · simp [bumpLang, h, lookupCount]
    · simp [bumpLang, h, lookupCount, ih]

theorem lookupCount_bumpLang_ne (s u : String) (hne : u ≠ s)
    (l : List (String × ℕ)) :
    lookupCount s (bumpLang l u) = lookupCount s l := by
  induction l with
  | nil => simp [bumpLang, lookupCount, hne]
  | cons p rest ih =>
    obtain ⟨k, cnt⟩ := p
    have hsu : ¬s = u := fun hc => hne hc.symm
    by_cases h : k = u
    · have hks : ¬k = s := fun hc => hne (h.symm.trans hc)
      simp [bumpLang, h, lookupCount, hks, hne]
    · by_cases hks : k = s <;>
        simp [bumpLang, h, lookupCount, hks, hsu, ih]

theorem bumpLang_ne_nil (l : List (String × ℕ)) (s : String) :
    bumpLang l s ≠ [] := by
  cases l with
  | nil => simp [bumpLang]
  | cons p rest =>
    obtain ⟨k, cnt⟩ := p
    by_cases h : k = s <;> simp [bumpLang, h]

theorem lookupCount_foldl_counter_step (s : String) (repos : List Repo) :
    ∀ acc : List (String × ℕ),
      lookupCount s (repos.foldl counter_step acc) =
        lookupCount s acc +
          (repos.filter (fun r => truthyLang r = some s)).length := by
  induction repos with
  | nil => intro acc; simp
  | cons r rest ih =>
    intro acc
    rw [List.foldl_cons]
    cases hr : truthyLang r with
    | none =>
      rw [counter_step, hr, ih]
      simp [List.filter_cons, hr]
    | some u =>
      rw [counter_step, hr, ih]
      by_cases hu : u = s
      · subst hu
        rw [lookupCount_bumpLang_same]
        simp only [List.filter_cons, hr]
        simp
        omega
      · rw [lookupCount_bumpLang_ne s u hu]
        simp [List.filter_cons, hr, hu]

/-- The count the Counter records for a language is the number of
repos whose truthy language is that value. -/
theorem lookupCount_lang_counter (s : String) (repos : List Repo) :
    lookupCount s (lang_counter repos) =
      (repos.filter (fun r => truthyLang r = some s)).length := by
  rw [lang_counter, lookupCount_foldl_counter_step]
  simp [lookupCount]

theorem foldl_counter_step_eq_nil (repos : List Repo) :
    ∀ acc : List (String × ℕ),
      repos.foldl counter_step acc = [] ↔
        acc = [] ∧ ∀ r ∈ repos, truthyLang r = none := by
  induction repos with
  | nil => intro acc; simp
  | cons r rest ih =>
    intro acc
    rw [List.foldl_cons]
    cases hr : truthyLang r with
    | none =>
      rw [counter_step, hr, ih]
      simp [hr]
    | some u =>
      rw [counter_step, hr, ih]
      simp [hr, bumpLang_ne_nil]

/-- The Counter is empty exactly when no repo has a truthy language. -/
theorem lang_counter_eq_nil (repos : List Repo) :
    lang_counter repos = [] ↔ ∀ r ∈ repos, truthyLang r = none := by
  rw [lang_counter, foldl_counter_step_eq_nil]
  simp

/- ── Claim theorems ── -/

set_option linter.unusedVariables false in
/-- Claim C1: for every metrics record with finite, non-negative
numeric fields, each of the six dimension scores and the overall
score returned by the scorer lie in [0, 100] inclusive. -/
theorem C1_scores_in_range (m : Metrics) (h : m.Nonneg) :
    (0 ≤ (score m).consistency ∧ (score m).consistency ≤ 100) ∧
    (0 ≤ (score m).collaboration ∧ (score m).collaboration ≤ 100) ∧
    (0 ≤ (score m).depth ∧ (score m).depth ≤ 100) ∧
    (0 ≤ (score m).breadth ∧ (score m).breadth ≤ 100) ∧
    (0 ≤ (score m).momentum ∧ (score m).momentum ≤ 100) ∧
    (0 ≤ (score m).openness ∧ (score m).openness ≤ 100) ∧
    (0 ≤ (score m).overall_score ∧ (score m).overall_score ≤ 100) :=
  ⟨⟨clamp_nonneg _, clamp_le_100 _⟩, ⟨clamp_nonneg _, clamp_le_100 _⟩,
   ⟨clamp_nonneg _, clamp_le_100 _⟩, ⟨clamp_nonneg _, clamp_le_100 _⟩,
   ⟨clamp_nonneg _, clamp_le_100 _⟩, ⟨clamp_nonneg _, clamp_le_100 _⟩,
   ⟨clamp_nonneg _, clamp_le_100 _⟩⟩

/-- Concrete instance of C1 at the all-zero metrics record. -/
theorem C1_witness : m0.Nonneg ∧
    (0 ≤ (score m0).overall_score ∧ (score m0).overall_score ≤ 100) := by
  have h : m0.Nonneg :=
    ⟨le_refl 0, le_refl 0, le_refl 0, le_refl 0, le_refl 0, le_refl 0,
     le_refl 0, le_refl 0, le_refl 0, le_refl 0, le_refl 0, le_refl 0,
     le_refl 0⟩
  exact ⟨h, (C1_scores_in_range m0 h).2.2.2.2.2.2⟩

set_option linter.unusedVariables false in
/-- Claim C7: for every value and positive scale, log_scale returns 0
for non-positive values, otherwise the clamped log ratio, and its
result always lies in [0, 100]. -/
theorem C7_log_scale_spec (value scale : ℝ) (h : 0 < scale) :
    (value ≤ 0 → log_scale value scale = 0) ∧
    (0 < value →
      log_scale value scale =
        clamp (Real.log (1 + value) / Real.log (1 + scale) * 100)) ∧
    0 ≤ log_scale value scale ∧ log_scale value scale ≤ 100 := by
  refine ⟨fun hv => ?_, fun hv => ?_, ?_, ?_⟩
  · rw [log_scale, if_pos hv]
  · rw [log_scale, if_neg (not_le.mpr hv)]
  · rw [log_scale]
    split_ifs with hv
    · norm_num
    · exact clamp_nonneg _
  · rw [log_scale]
    split_ifs with hv
    · norm_num
    · exact clamp_le_100 _

/-- Concrete instance of C7 at value 1, scale 1. -/
theorem C7_witness :
    (0:ℝ) < 1 ∧ 0 ≤ log_scale 1 1 ∧ log_scale 1 1 ≤ 100 :=
  ⟨one_pos, (C7_log_scale_spec 1 1 one_pos).2.2.1,
   (C7_log_scale_spec 1 1 one_pos).2.2.2⟩

/-- Claim C10: the openness dimension is bounded by 70, the maximum
of the weighted sum 100·0.40 + 50·0.30 + 50·0.30, whenever the two
ratio fields are genuine ratios (at most 1). -/
theorem C10_openness_le_70 (m : Metrics)
    (h1 : m.has_license_ratio ≤ 1) (h2 : m.forked_ratio ≤ 1) :
    (score m).openness ≤ 70 := by
  have h1R : (m.has_license_ratio : ℝ) ≤ 1 := by exact_mod_cast h1
  have h2R : (m.forked_ratio : ℝ) ≤ 1 := by exact_mod_cast h2
  have hp : ((if m.has_blog then (25:ℝ) else 0) +
      (if m.has_bio then (25:ℝ) else 0)) ≤ 50 := by
    split_ifs <;> norm_num
  show clamp ((m.has_license_ratio : ℝ) * 100 * 0.40 +
      (m.forked_ratio : ℝ) * 50 * 0.30 +
      ((if m.has_blog then (25:ℝ) else 0) +
        (if m.has_bio then (25:ℝ) else 0)) * 0.30) ≤ 70
  rw [clamp]
  refine max_le (by norm_num) (le_trans (min_le_right _ _) ?_)
  linarith

/-- Concrete instance of C10 at the all-zero metrics record. -/
theorem C10_witness :
    m0.has_license_ratio ≤ 1 ∧ m0.forked_ratio ≤ 1 ∧
    (score m0).openness ≤ 70 :=
  ⟨by norm_num [m0], by norm_num [m0],
   C10_openness_le_70 m0 (by norm_num [m0]) (by norm_num [m0])⟩

/-- Claim C3: classification of the overall score is the first-match
three-way threshold at 70 and 40. -/
theorem C3_classify_thresholds (s : ℝ) :
    (70 ≤ s → classify_tendency s = "Utopia") ∧
    (s ≤ 40 → classify_tendency s = "Dystopia") ∧
    (40 < s → s < 70 → classify_tendency s = "Unexpected") := by
  refine ⟨fun h => ?_, fun h => ?_, fun h1 h2 => ?_⟩
  · simp only [classify_tendency, UTOPIA_THRESHOLD, DYSTOPIA_THRESHOLD]
    rw [if_pos h]
  · simp only [classify_tendency, UTOPIA_THRESHOLD, DYSTOPIA_THRESHOLD]
    rw [if_neg (by linarith), if_pos h]
  · simp only [classify_tendency, UTOPIA_THRESHOLD, DYSTOPIA_THRESHOLD]
    rw [if_neg (by linarith), if_neg (by linarith)]

/-- Concrete instances of C3 at the boundary scores. -/
theorem C3_witness :
    ((70:ℝ) ≤ 70 ∧ classify_tendency 70 = "Utopia") ∧
    ((40:ℝ) ≤ 40 ∧ classify_tendency 40 = "Dystopia") ∧
    ((40:ℝ) < 40.001 ∧ (40.001:ℝ) < 70 ∧
      classify_tendency 40.001 = "Unexpected") :=
  ⟨⟨le_refl _, (C3_classify_thresholds 70).1 (le_refl _)⟩,
   ⟨le_refl _, (C3_classify_thresholds 40).2.1 (le_refl _)⟩,
   ⟨by norm_num, by norm_num,
    (C3_classify_thresholds 40.001).2.2 (by norm_num) (by norm_num)⟩⟩

/-- Claim C6: the momentum ratio equals
safe_divide(eventsLast30d, max(safe_divide(events30to90d, 2), 1)), and
when events30to90d is zero and eventsLast30d is positive it equals
eventsLast30d exactly. -/
theorem C6_momentum_ratio (now : ℚ) (raw : RawData) :
    (analyze now raw).momentum_ratio =
      safe_divide ((analyze now raw).events_last_30d : ℚ)
        (max (safe_divide ((analyze now raw).events_30_90d : ℚ) 2) 1) ∧
    ((analyze now raw).events_30_90d = 0 →
      0 < (analyze now raw).events_last_30d →
      (analyze now raw).momentum_ratio =
        ((analyze now raw).events_last_30d : ℚ)) := by
  have heq : (analyze now raw).momentum_ratio =
      safe_divide ((analyze now raw).events_last_30d : ℚ)
        (max (safe_divide ((analyze now raw).events_30_90d : ℚ) 2) 1) := rfl
  refine ⟨heq, fun h0 _ => ?_⟩
  rw [heq, h0]
  norm_num [safe_divide]

/-- Concrete instance of C6: three recent events, none in the
30-to-90-day bucket. -/
theorem C6_witness :
    (analyze 0 raw3).events_30_90d = 0 ∧
    0 < (analyze 0 raw3).events_last_30d ∧
    (analyze 0 raw3).momentum_ratio =
      ((analyze 0 raw3).events_last_30d : ℚ) := by
  have h30 : (analyze 0 raw3).events_30_90d = 0 := by
    norm_num [analyze, raw3, ev30, emptyProfile, event_metrics, event_step,
      event_tally, fromisoformatEv, List.foldl]
  have hpos : 0 < (analyze 0 raw3).events_last_30d := by
    norm_num [analyze, raw3, ev30, emptyProfile, event_metrics, event_step,
      event_tally, fromisoformatEv, List.foldl]
  exact ⟨h30, hpos, (C6_momentum_ratio 0 raw3).2 h30 hpos⟩

/-- Claim C2: the event loop never propagates a failure — each
iteration catches the date-parse error and skips the record — and on
the list of three malformed events the analyzer still returns a
complete metrics record. -/
theorem C2_malformed_events_safe :
    (∀ (now : ℚ) (events : List Event),
      event_foldE now events =
        Except.ok (events.foldl (event_step now) ⟨0, [], 0, 0⟩)) ∧
    analyze 0 rawBad =
      ⟨"unknown", 0, 0, 0, 0, 0, false, false, false,
       0, 0, 0, 0, 0, [], "N/A", 0, 0, 0, 0,
       3, 1, 0, 0, 0, 0, 0, 0, 1, 0,
       "Last 30 days (currently active)", 1, 0, 1⟩ := by
  refine ⟨fun now events => foldlM_event_stepE_ok now events _, ?_⟩
  have he : event_metrics 0 rawBad.events =
      ⟨3, 1, 0, 0, 0, 0, 0, 0, 1, 0, "Last 30 days (currently active)", 1⟩ := by
    show event_metrics 0 [badPush, noTypeEvent, emptyEvent] = _
    norm_num [event_metrics, badPush, noTypeEvent, emptyEvent,
      List.filter_cons, List.filter_nil, event_step, event_tally,
      fromisoformatEv, List.foldl, event_types_count, most_active_rule,
      List.filterMap, List.dedup, List.insert]
    decide
  simp only [analyze, he]
  norm_num [profile_metrics, repo_metrics, derived_metrics, emptyProfile,
    rawBad, days_since, years_since, parse_github_date, safe_divide]

/-- Claim C9: empty repos list gives the zero repo metrics with
topLanguages N/A, and the empty profile mapping gives username
unknown and accountAgeDays 0. -/
theorem C9_empty_inputs (now : ℚ) :
    (∀ (p : Profile) (es : List Event),
      (analyze now ⟨p, [], es⟩).total_repos = 0 ∧
      (analyze now ⟨p, [], es⟩).total_stars = 0 ∧
      (analyze now ⟨p, [], es⟩).language_count = 0 ∧
      (analyze now ⟨p, [], es⟩).top_languages = "N/A") ∧
    (∀ (rs : List Repo) (es : List Event),
      (analyze now ⟨emptyProfile, rs, es⟩).username = "unknown" ∧
      (analyze now ⟨emptyProfile, rs, es⟩).account_age_days = 0) :=
  ⟨fun _ _ => ⟨rfl, rfl, rfl, rfl⟩, fun _ _ => ⟨rfl, rfl⟩⟩

/-- Claim C5 counterexample: on the empty events list the code
returns N/A while the claimed derivation, evaluated on the stored
counts (both zero), yields the more-than-90-days branch. -/
theorem C5_counterexample :
    (event_metrics 0 []).most_active_period ≠
      most_active_rule (event_metrics 0 []).events_last_30d
        (event_metrics 0 []).events_30_90d := by
  decide

/-- Claim C5 (amended): for every non-empty events list the stored
mostActivePeriod equals the claimed three-way derivation from the
stored eventsLast30d and events30to90d counts; the empty list is
short-circuited to N/A instead. -/
theorem C5_most_active_amended (now : ℚ) (events : List Event)
    (h : events ≠ []) :
    (event_metrics now events).most_active_period =
      most_active_rule (event_metrics now events).events_last_30d
        (event_metrics now events).events_30_90d := by
  cases events with
  | nil => exact absurd rfl h
  | cons e rest => rfl

/-- Concrete instance of C5 (amended) at a one-event list. -/
theorem C5_witness :
    ([evWitness] ≠ ([] : List Event)) ∧
    (event_metrics 0 [evWitness]).most_active_period =
      most_active_rule (event_metrics 0 [evWitness]).events_last_30d
        (event_metrics 0 [evWitness]).events_30_90d :=
  ⟨by simp, C5_most_active_amended 0 [evWitness] (by simp)⟩

/-- The average-age field of the repo metrics on a non-empty list,
exposed as the code computes it. -/
theorem avg_repo_age_eq (now : ℚ) (r : Repo) (rest : List Repo) :
    (repo_metrics now (r :: rest)).avg_repo_age_days =
      (if (((r :: rest).filter (fun x => x.created_at.truthy)).map
            (fun x => days_since now x.created_at)).isEmpty then (0:ℚ)
       else (((r :: rest).filter (fun x => x.created_at.truthy)).map
            (fun x => days_since now x.created_at)).sum /
         ((((r :: rest).filter (fun x => x.created_at.truthy)).map
            (fun x => days_since now x.created_at)).length : ℚ)) := rfl

/-- Claim C4 counterexample: a ten-day-old repo next to a repo whose
created_at is a non-empty unparsable string. The code averages over
both (the unparsable one contributing 0.0) and returns 5, while the
claim averages only over the parsable repo and demands 10. -/
theorem C4_counterexample :
    (repo_metrics 864000 [repoOld, repoGarbage]).avg_repo_age_days ≠
      avg_repo_age_days_spec 864000 [repoOld, repoGarbage] := by
  have h1 : (repo_metrics 864000 [repoOld, repoGarbage]).avg_repo_age_days
      = 5 := by
    rw [avg_repo_age_eq]
    norm_num [repoOld, repoGarbage, List.filter_cons, List.filter_nil,
      RawDate.truthy, days_since, parse_github_date]
  have h2 : avg_repo_age_days_spec 864000 [repoOld, repoGarbage] = 10 := by
    norm_num [avg_repo_age_days_spec, repoOld, repoGarbage, List.filter_cons,
      List.filter_nil, days_since, parse_github_date]
  rw [h1, h2]
  norm_num

/-- Claim C4 (amended): avgRepoAgeDays is the mean of days-since over
exactly the repos whose created_at is present and non-empty (an
unparsable value contributing 0.0 through days_since), and is 0 when
no repo has such a created_at. -/
theorem C4_avg_repo_age_amended (now : ℚ) (repos : List Repo) :
    ((∀ r ∈ repos, r.created_at.truthy = false) →
      (repo_metrics now repos).avg_repo_age_days = 0) ∧
    (∀ r0 ∈ repos, r0.created_at.truthy = true →
      (repo_metrics now repos).avg_repo_age_days =
        ((repos.filter (fun r => r.created_at.truthy)).map
          (fun r => days_since now r.created_at)).sum /
        ((repos.filter (fun r => r.created_at.truthy)).length : ℚ)) := by
  constructor
  · intro hall
    cases repos with
    | nil => rfl
    | cons rp rest =>
      rw [avg_repo_age_eq]
      have hf : (rp :: rest).filter (fun x => x.created_at.truthy) = [] :=
        List.filter_eq_nil_iff.mpr (fun a ha => by simp [hall a ha])
      simp [hf]
  · intro r0 hr0 htr
    cases repos with
    | nil => exact absurd hr0 (List.not_mem_nil r0)
    | cons rp rest =>
      rw [avg_repo_age_eq]
      have hne : (rp :: rest).filter (fun x => x.created_at.truthy) ≠ [] :=
        List.ne_nil_of_mem (List.mem_filter.mpr ⟨hr0, htr⟩)
      have hagesne : ((rp :: rest).filter (fun x => x.created_at.truthy)).map
          (fun x => days_since now x.created_at) ≠ [] := by
        simp [List.map_eq_nil_iff, hne]
      simp [List.isEmpty_eq_false.mpr hagesne, List.length_map]

/-- Concrete instance of C4 (amended) at the counterexample input. -/
theorem C4_witness :
    repoOld ∈ [repoOld, repoGarbage] ∧
    repoOld.created_at.truthy = true ∧
    (repo_metrics 864000 [repoOld, repoGarbage]).avg_repo_age_days =
      (([repoOld, repoGarbage].filter (fun r => r.created_at.truthy)).map
        (fun r => days_since 864000 r.created_at)).sum /
      (([repoOld, repoGarbage].filter
        (fun r => r.created_at.truthy)).length : ℚ) :=
  ⟨List.mem_cons_self _ _, rfl,
   (C4_avg_repo_age_amended 864000 [repoOld, repoGarbage]).2 repoOld
     (List.mem_cons_self _ _) rfl⟩

/-- Claim C8 counterexample: a single repo whose language is the
empty string. The claim counts it as a non-null language value and
would render it, but the code tests truthiness and excludes it,
returning N/A. -/
theorem C8_counterexample :
    (repo_metrics 0 [repoEmptyLang]).top_languages ≠
      top_languages_spec [repoEmptyLang] := by
  decide

/-- Claim C8 (amended): topLanguages is built by counting the truthy
(non-null, non-empty) language values — each count is the number of
repos carrying that language — ranking them in descending order of
count with ties in first-encountered order (the ranked list is a
permutation of the counter, sorted by descending count, and its
restriction to any fixed count keeps the counter order), taking the
top five joined by a comma-space, and is N/A exactly when no repo has
a truthy language. -/
theorem C8_top_languages_amended (repos : List Repo) :
    (∀ s : String, lookupCount s (lang_counter repos) =
      (repos.filter (fun r => truthyLang r = some s)).length) ∧
    (most_common (lang_counter repos)).Perm (lang_counter repos) ∧
    (most_common (lang_counter repos)).Sorted (fun a b => b.2 ≤ a.2) ∧
    (∀ c : ℕ, (most_common (lang_counter repos)).filter (fun p => p.2 = c) =
      (lang_counter repos).filter (fun p => p.2 = c)) ∧
    (∀ now : ℚ, (repo_metrics now repos).top_languages =
      if most_common (lang_counter repos) = [] then "N/A"
      else String.intercalate ", "
        (((most_common (lang_counter repos)).map Prod.fst).take 5)) ∧
    (most_common (lang_counter repos) = [] ↔
      ∀ r ∈ repos, truthyLang r = none) := by
  refine ⟨fun s => lookupCount_lang_counter s repos,
    most_common_perm _, sorted_most_common _,
    fun c => filter_most_common _ c, ?_, ?_⟩
  · intro now
    cases repos with
    | nil => simp [repo_metrics, lang_counter, most_common]
    | cons rp rest =>
      show (if ((most_common (lang_counter (rp :: rest))).map Prod.fst).isEmpty
          then "N/A" else String.intercalate ", "
            (((most_common (lang_counter (rp :: rest))).map Prod.fst).take 5))
          = _
      by_cases hmc : most_common (lang_counter (rp :: rest)) = []
      · simp [hmc]
      · have hne : ((most_common (lang_counter (rp :: rest))).map Prod.fst)
            ≠ [] := by
          simp [List.map_eq_nil_iff, hmc]
        simp [hmc, List.isEmpty_eq_false.mpr hne]
  · constructor
    · intro h
      rw [← lang_counter_eq_nil]
      have hp := most_common_perm (lang_counter repos)
      rw [h] at hp
      have hlen := hp.length_eq
      simpa using List.length_eq_zero.mp hlen.symm
    · intro h
      rw [(lang_counter_eq_nil repos).mpr h]
      rfl

/-- Concrete instance of C8 (amended): Python is counted twice over a
two-repo list. -/
theorem C8_witness :
    lookupCount "Python" (lang_counter [repoPy, repoPy]) =
      ([repoPy, repoPy].filter
        (fun r => truthyLang r = some "Python")).length :=
  (C8_top_languages_amended [repoPy, repoPy]).1 "Python"

end GitLegacy
